import Mathlib

/-!
Shallow embedding of the retry/backoff fetcher and its call sites from the
reddit-auto repository (src/src/generateComicImage.js, src/src/getPreviousDayPRs.js,
src/src/main.ts, and the unnamed workflow modules), together with theorems about
the retry schedule, error propagation, PR pagination, prompt synthesis and the
full workflow.
-/

/-- Retry configuration (spec §3 RetryPolicy). The source hard-codes
`MAX_RETRIES = 3`, `INITIAL_RETRY_DELAY = 2` and multiplier `2`
(`Math.pow(2, attempt - 1)`); the embedding abstracts those three constants,
which `codeRetryPolicy` below re-instantiates. -/
structure RetryPolicy where
  maxAttempts : Nat
  initialDelaySeconds : ℚ
  backoffMultiplier : ℚ
deriving Repr, DecidableEq

/-- Delay computed at the head of a retry call in the source:
`INITIAL_RETRY_DELAY * Math.pow(2, attempt - 1)` (generalised multiplier),
for the 0-based attempt index. -/
def attemptDelay (p : RetryPolicy) (attempt : Nat) : ℚ :=
  p.initialDelaySeconds * p.backoffMultiplier ^ (attempt - 1)

/-- Observable trace of one run of the retry fetcher: how many times the
wrapped operation was invoked, the sleeps inserted (in seconds, in order),
and the final outcome (`Except.error` models a thrown JS error message). -/
structure FetchTrace (α : Type) where
  invocations : Nat
  delays : List ℚ
  result : Except String α

/-- Sleep list inserted at the head of one call of the retry fetcher: a retry
call (`attempt > 0`) sleeps for the exponential-backoff delay, the first call
does not (src/src/generateComicImage.js lines 60-64). -/
def attemptSleeps (p : RetryPolicy) (attempt : Nat) : List ℚ :=
  if 0 < attempt then [attemptDelay p attempt] else []

/-- A single attempt with no recursion budget left: one invocation, the sleep
of this call, and whatever the operation produced. -/
def fetchOnce {α : Type} (p : RetryPolicy) (op : Nat → Except String α)
    (attempt : Nat) : FetchTrace α :=
  match op (attempt + 1) with
  | .ok v => ⟨1, attemptSleeps p attempt, .ok v⟩
  | .error e => ⟨1, attemptSleeps p attempt, .error e⟩

/-- Recursive body of `fetchImageWithRetry` (src/src/generateComicImage.js,
lines 57-84; identical shape in `generateImage` of the unnamed modules).
`op k` is the outcome of the k-th invocation (1-based) of the wrapped
network operation. The JS function recurses on `attempt + 1` while
`attempt < MAX_RETRIES - 1`; `fuel` bounds that recursion depth structurally
and the wrapper seeds it with `p.maxAttempts`, which the guard never exhausts
(at the guard, `p.maxAttempts - 1 - attempt` units of fuel remain). -/
def fetchGo {α : Type} (p : RetryPolicy) (op : Nat → Except String α) :
    Nat → Nat → FetchTrace α
  | attempt, 0 => fetchOnce p op attempt
  | attempt, fuel + 1 =>
    match op (attempt + 1) with
    | .ok v => ⟨1, attemptSleeps p attempt, .ok v⟩
    | .error e =>
      if attempt < p.maxAttempts - 1 then
        let rest := fetchGo p op (attempt + 1) fuel
        ⟨rest.invocations + 1, attemptSleeps p attempt ++ rest.delays, rest.result⟩
      else ⟨1, attemptSleeps p attempt, .error e⟩

/-- Entry point of the retry fetcher: the source calls
`fetchImageWithRetry(encodedPrompt, seed)` with default `attempt = 0`. -/
def fetchImageWithRetry {α : Type} (p : RetryPolicy) (op : Nat → Except String α) :
    FetchTrace α :=
  fetchGo p op 0 p.maxAttempts

/-- One raw fetch outcome as seen inside the try-block of an attempt: either
the promise rejects (network error) or an HTTP response arrives with a status
code, status text and body. -/
inductive FetchOutcome (α : Type) where
  | networkError (msg : String)
  | response (status : Nat) (statusText : String) (body : α)
deriving Repr, DecidableEq

/-- JS `response.ok`: status in the 2xx range. -/
def responseOk (status : Nat) : Bool :=
  200 ≤ status && status ≤ 299

/-- Error message thrown by the attempt body for a non-2xx response:
`HTTP status: statusText` (src/src/generateComicImage.js line 72). -/
def httpErrorMessage (status : Nat) (statusText : String) : String :=
  "HTTP " ++ toString status ++ ": " ++ statusText

/-- Body of one attempt (the try-block of `fetchImageWithRetry`): a rejected
fetch propagates its error; a non-ok response is turned into a thrown
`HTTP status: statusText` error; an ok response returns the body buffer. -/
def attemptResult {α : Type} : FetchOutcome α → Except String α
  | .networkError m => .error m
  | .response status text body =>
      if responseOk status then .ok body
      else .error (httpErrorMessage status text)

/-- The retry fetcher driven by raw fetch outcomes (outcome of the k-th
invocation given by `outcomes k`). -/
def fetchRun {α : Type} (p : RetryPolicy) (outcomes : Nat → FetchOutcome α) :
    FetchTrace α :=
  fetchImageWithRetry p (fun k => attemptResult (outcomes k))

/-- The constants fixed in the source: `MAX_RETRIES = 3`,
`INITIAL_RETRY_DELAY = 2`, multiplier `2`. -/
def codeRetryPolicy : RetryPolicy := ⟨3, 2, 2⟩

/-- JS truthiness test used by the token guards (`!githubToken`,
`!pollinationsToken`): `undefined` (modelled `none`) and the empty string are
falsy. -/
def isFalsy : Option String → Bool
  | none => true
  | some s => s.isEmpty

/-- One PR node as returned by the GraphQL query (src/src/getPreviousDayPRs.js
lines 47-61): `body`, `author.login` and `labels` may be absent. `mergedAt` is
the merge timestamp, modelled as an integer epoch value. -/
structure RawPR where
  number : Nat
  title : String
  body : Option String
  url : String
  author : Option String
  labels : Option (List String)
  mergedAt : Int
deriving Repr, DecidableEq

/-- The PR record pushed into `allPRs` (src/src/getPreviousDayPRs.js
lines 115-123). -/
structure PR where
  number : Nat
  title : String
  body : String
  url : String
  author : String
  labels : List String
  mergedAt : Int
deriving Repr, DecidableEq

/-- The defaulting applied when pushing a node into `allPRs`:
`pr.body || ''`, `pr.author?.login || 'unknown'`,
`pr.labels?.nodes?.map(l => l.name) || []`. -/
def prOfRaw (raw : RawPR) : PR :=
  { number := raw.number
    title := raw.title
    body := raw.body.getD ""
    url := raw.url
    author := raw.author.getD "unknown"
    labels := raw.labels.getD []
    mergedAt := raw.mergedAt }

/-- The previous-day filter `mergedDate >= startDate && mergedDate < endDate`
(src/src/getPreviousDayPRs.js line 114). -/
def inPreviousDay (startDate endDate : Int) (mergedAt : Int) : Bool :=
  startDate ≤ mergedAt && mergedAt < endDate

/-- One page of the paginated GraphQL result. -/
structure Page where
  nodes : List RawPR
  hasNextPage : Bool
deriving Repr, DecidableEq

/-- Outcome of one fetch invocation inside the pagination loop: a successful
page, a response whose JSON carries `data.errors` (the loop logs and breaks),
or a thrown fetch error (the catch logs and breaks). -/
inductive PageResult where
  | success (page : Page)
  | graphqlErrors
  | fetchError (msg : String)
deriving Repr, DecidableEq

/-- PRs of one page that survive the previous-day filter, in defaulted form. -/
def pageFiltered (startDate endDate : Int) (page : Page) : List PR :=
  (page.nodes.filter (fun r => inPreviousDay startDate endDate r.mergedAt)).map prOfRaw

/-- The `while (true)` pagination loop of `getMergedPRsFromPreviousDay`
(src/src/getPreviousDayPRs.js lines 80-135). `fetchResults n` is the outcome
of the n-th fetch invocation (1-based; absent any retry logic the invocation
index coincides with `pageNum`). Returns the accumulated PR list and the
number of fetch invocations performed. A fetch error or GraphQL error breaks
the loop; a page without `hasNextPage` ends it normally. `fuel` bounds the
observation of the unbounded JS loop; theorems supply enough fuel. -/
def fetchPagesLoop (fetchResults : Nat → PageResult) (startDate endDate : Int) :
    Nat → Nat → List PR → List PR × Nat
  | 0, _, acc => (acc, 0)
  | fuel + 1, pageNum, acc =>
    match fetchResults pageNum with
    | .fetchError _ => (acc, 1)
    | .graphqlErrors => (acc, 1)
    | .success page =>
      let acc' := acc ++ pageFiltered startDate endDate page
      if page.hasNextPage then
        let r := fetchPagesLoop fetchResults startDate endDate fuel (pageNum + 1) acc'
        (r.1, r.2 + 1)
      else (acc', 1)

/-- `getMergedPRsFromPreviousDay` (src/src/getPreviousDayPRs.js lines 27-139):
guards the GitHub token before any fetch, then runs the pagination loop from
page 1 with an empty accumulator. The second component counts the network
(fetch) invocations performed. -/
def getMergedPRsFromPreviousDay (githubToken : Option String)
    (fetchResults : Nat → PageResult) (startDate endDate : Int) (fuel : Nat) :
    Except String (List PR) × Nat :=
  if isFalsy githubToken then (.error "GitHub token is required", 0)
  else
    let r := fetchPagesLoop fetchResults startDate endDate fuel 1 []
    (.ok r.1, r.2)

/-- Entry of the `prs` field of the prompt data:
`prs.map(p => ({ number: p.number, title: p.title, url: p.url }))`. -/
structure PRRef where
  number : Nat
  title : String
  url : String
deriving Repr, DecidableEq

/-- Result shape of `createMergedPrompt`. In the empty-input fallback the JS
object has no `prs` field, modelled as `none`. -/
structure PromptData where
  prompt : String
  summary : String
  prCount : Nat
  highlights : List String
  prs : Option (List PRRef)
deriving Repr, DecidableEq

/-- JS `String.prototype.includes`, via `splitOn`: the pattern occurs in `s`
iff splitting on it produces more than one piece. -/
def strContains (s pat : String) : Bool :=
  2 ≤ (s.splitOn pat).length

/-- Category assigned to a PR title (src/src/getPreviousDayPRs.js
lines 158-164): lower-case the title, then test substrings in order. -/
def categorize (title : String) : String :=
  let t := title.toLower
  if strContains t "fix" || strContains t "bug" then "bug fix"
  else if strContains t "feat" || strContains t "add" then "feature"
  else if strContains t "docs" then "documentation"
  else if strContains t "perf" || strContains t "optim" then "optimization"
  else "update"

/-- Highlight line for one PR: `category: title`. -/
def highlightOf (pr : PR) : String :=
  categorize pr.title ++ ": " ++ pr.title

/-- Theme derived from a highlight (src/src/getPreviousDayPRs.js
lines 179-185). -/
def themeOf (h : String) : String :=
  if strContains h "bug" then "stability"
  else if strContains h "feature" then "innovation"
  else if strContains h "docs" then "education"
  else if strContains h "optim" then "performance"
  else "growth"

/-- JS `[...new Set(xs)]`: deduplicate keeping the first occurrence of each
element, accumulating the elements already seen. -/
def dedupFirstAux (seen : List String) : List String → List String
  | [] => []
  | a :: l => if a ∈ seen then dedupFirstAux seen l else a :: dedupFirstAux (a :: seen) l

/-- Deduplication preserving first-occurrence order, as `[...new Set(xs)]`. -/
def dedupFirst (l : List String) : List String :=
  dedupFirstAux [] l

/-- The fixed fallback returned by `createMergedPrompt` for a null or empty PR
list (src/src/getPreviousDayPRs.js lines 145-152). -/
def fallbackPromptData : PromptData :=
  { prompt := "Pollinations: A free, open-source AI image generation platform with community updates"
    summary := "No specific updates from previous day"
    prCount := 0
    highlights := []
    prs := none }

/-- `createMergedPrompt` (src/src/getPreviousDayPRs.js lines 144-197). The
input is `none` for a null/undefined argument and `some l` for a list. -/
def createMergedPrompt (prs : Option (List PR)) : PromptData :=
  match prs with
  | none => fallbackPromptData
  | some [] => fallbackPromptData
  | some l =>
    let highlights := (l.take 8).map highlightOf
    let summary := toString l.length ++ " PRs merged:\n" ++
      String.intercalate "\n" (highlights.map (fun h => "• " ++ h))
    let themes := String.intercalate ", " (dedupFirst (highlights.map themeOf))
    let prompt :=
      "Create a vibrant, comic-styled illustration representing Pollinations AI updates:\n" ++
      "- Community-driven open source AI image generation\n" ++
      "- " ++ toString l.length ++ " improvements merged\n" ++
      "- Key themes: " ++ themes ++ "\n\n" ++
      "Visual style: Comic book aesthetic with bright colors, dynamic composition, speech bubbles showing key features. Include: code elements, flowers/bees (Pollinations theme), happy developers, colorful energy. Retro comic art style with modern vibrancy."
    { prompt := prompt
      summary := summary
      prCount := l.length
      highlights := highlights
      prs := some (l.map (fun p => ⟨p.number, p.title, p.url⟩)) }

deriving instance DecidableEq for Except

/-- Observable trace of a run of an entry point: how many network calls were
performed and whether the body completed or raised (the raised error carries
its message; the platform catch around it only reports). -/
structure RunTrace where
  networkCalls : Nat
  outcome : Except String Unit
deriving Repr, DecidableEq

/-- Try-block of the `onPress` handler (src/src/main.ts lines 24-53): read
both settings, throw a configuration error if either is missing or empty,
and only then run the network pipeline (modelled abstractly by its trace,
since pipeline.ts performs all the network calls). -/
def onPressTry (githubToken polliToken : Option String) (pipeline : RunTrace) :
    RunTrace :=
  if isFalsy githubToken then
    ⟨0, .error "GitHub token not configured. Please set it in app settings."⟩
  else if isFalsy polliToken then
    ⟨0, .error "Pollinations token not configured. Please set it in app settings."⟩
  else pipeline

/-- Value of a JS expression that may either produce a value or throw. -/
inductive JsResult (α : Type) where
  | ok (value : α)
  | thrown (msg : String)
deriving Repr, DecidableEq

/-- Data of the success object built by `generateAndSaveComicImage`. -/
structure GenSuccess where
  filepath : String
  filename : String
  filesize : Nat
deriving Repr, DecidableEq

/-- Result object of `generateAndSaveComicImage`: `success: true` with file
data, or `success: false` with the caught error message. -/
inductive GenImageResult where
  | success (filepath filename : String) (filesize : Nat)
  | failure (error : String)
deriving Repr, DecidableEq

/-- The image filename `comic-TIMESTAMP-NOW.png` built from the date string
and `Date.now()`. -/
def imageFilename (timestamp : String) (nowMs : Nat) : String :=
  "comic-" ++ timestamp ++ "-" ++ toString nowMs ++ ".png"

/-- The output directory name, `generated_images` resolved next to the
module. -/
def outputDirName : String := "generated_images"

/-- Try-block of `generateAndSaveComicImage` (unnamed module part_001 lines
70-104): ensure the output directory (`mkdir` outcome), build the filename,
read the prompt from the prompt data (accessing `.prompt` on a missing object
throws a TypeError), run the retry fetcher with the source's constants, and
write the buffer to disk. Any failing step throws; the disk is the list of
files written so far and gains the image file only when the write succeeds. -/
def generateAndSaveTry (promptData : Option PromptData) (mkdir : Except String Unit)
    (outcomes : Nat → FetchOutcome Nat) (write : Except String Unit)
    (timestamp : String) (nowMs : Nat) (disk : List String) :
    List String × JsResult GenSuccess :=
  match mkdir with
  | .error m => (disk, .thrown m)
  | .ok _ =>
    let filename := imageFilename timestamp nowMs
    match promptData with
    | none => (disk, .thrown "Cannot read properties of undefined (reading prompt)")
    | some _ =>
      match (fetchRun codeRetryPolicy outcomes).result with
      | .error m => (disk, .thrown m)
      | .ok size =>
        match write with
        | .error m => (disk, .thrown m)
        | .ok _ =>
          (disk ++ [filename],
           .ok ⟨outputDirName ++ "/" ++ filename, filename, size⟩)

/-- `generateAndSaveComicImage` (unnamed module part_001 lines 69-112): the
try-block wrapped in the catch that turns any thrown error into a
`success: false` result object; the function itself never rethrows, so its
own outcome is always `JsResult.ok`. -/
def generateAndSaveComicImage (promptData : Option PromptData)
    (mkdir : Except String Unit) (outcomes : Nat → FetchOutcome Nat)
    (write : Except String Unit) (timestamp : String) (nowMs : Nat)
    (disk : List String) : List String × JsResult GenImageResult :=
  match generateAndSaveTry promptData mkdir outcomes write timestamp nowMs disk with
  | (d, .ok s) => (d, .ok (.success s.filepath s.filename s.filesize))
  | (d, .thrown m) => (d, .ok (.failure m))

/-- Result object of `runFullWorkflow`. -/
inductive WorkflowResult where
  | success (prCount : Nat) (imageFile : String) (postUrl : String)
  | failure (error : String)
deriving Repr, DecidableEq

/-- `runFullWorkflow` (unnamed module part_003 lines 110-168): prompt step,
image generation (which writes the image file to disk on success), bot
verification, then `postImageToReddit`, whose thrown error (`post` is the
posting outcome, `Except.ok` carrying the permalink) is caught by the
workflow's catch and returned as `success: false`. Nothing is ever removed
from `disk`. -/
def runFullWorkflow (promptData : Option PromptData) (mkdir : Except String Unit)
    (outcomes : Nat → FetchOutcome Nat) (write : Except String Unit)
    (timestamp : String) (nowMs : Nat) (botConnected : Bool)
    (post : Except String String) (disk : List String) :
    List String × WorkflowResult :=
  match promptData with
  | none => (disk, .failure "Failed to generate prompt from PRs")
  | some pd =>
    match generateAndSaveComicImage promptData mkdir outcomes write timestamp nowMs disk with
    | (d, .thrown m) => (d, .failure m)
    | (d, .ok (.failure m)) => (d, .failure ("Image generation failed: " ++ m))
    | (d, .ok (.success _ fn _)) =>
      if botConnected then
        match post with
        | .error m => (d, .failure m)
        | .ok permalink => (d, .success pd.prCount fn permalink)
      else (d, .failure "Bot connection verification failed")

/-- Concrete operation that fails once and then succeeds, used to exercise
the success path of the retry fetcher. -/
def opSucceedsSecond : Nat → Except String Nat :=
  fun j => if j = 2 then .ok 42 else .error "ECONNRESET"

/-- Concrete outcome stream: every invocation is a rejected fetch. -/
def httpOutcomes : Nat → FetchOutcome Nat :=
  fun _ => FetchOutcome.networkError "socket hang up"

/-- Concrete outcome stream: every invocation returns a 200 response carrying
a 4096-byte buffer. -/
def okOutcomes : Nat → FetchOutcome Nat :=
  fun _ => FetchOutcome.response 200 "OK" 4096

/-- Concrete final page holding one previous-day PR. -/
def samplePRPage : Page :=
  ⟨[⟨101, "fix: pagination retry", some "details",
     "https://github.com/pollinations/pollinations/pull/101",
     some "dev", some ["bug"], 50⟩], false⟩

/-- Concrete fetch-invocation stream whose first invocation fails transiently
and whose later invocations would succeed with `samplePRPage`. -/
def transientFailPages : Nat → PageResult :=
  fun n => if n = 1 then .fetchError "network timeout" else .success samplePRPage

/-- Concrete page with a successor, used to drive the pagination loop past
its first page. -/
def wPage : Page := ⟨[⟨7, "feat: add growth", none, "u", none, none, 10⟩], true⟩

/-- Concrete fetch-invocation stream: page 1 succeeds with `wPage`, the
second invocation fails transiently. -/
def wFetch : Nat → PageResult :=
  fun n => if n = 2 then .fetchError "network timeout" else .success wPage

/-- Constant page assignment used together with `wFetch`. -/
def wPg : Nat → Page := fun _ => wPage

/-- Concrete operation that fails on every invocation. -/
def wOp : Nat → Except String Nat := fun _ => .error "socket hang up"

/-- Concrete PR record used to exercise `createMergedPrompt`. -/
def samplePR : PR :=
  ⟨1, "fix: bug in prompt", "", "https://github.com/pollinations/pollinations/pull/1",
   "dev", [], 0⟩

/-- Every run of the retry body invokes the operation at least once. -/
theorem fetchGo_invocations_pos {α : Type} (p : RetryPolicy)
    (op : Nat → Except String α) (attempt fuel : Nat) :
    1 ≤ (fetchGo p op attempt fuel).invocations := by
  cases fuel with
  | zero => cases hop : op (attempt + 1) <;> simp [fetchGo, fetchOnce, hop]
  | succ f =>
    cases hop : op (attempt + 1) with
    | ok v => simp [fetchGo, hop]
    | error e => by_cases hg : attempt < p.maxAttempts - 1 <;> simp [fetchGo, hop, hg]

/-- On an operation that fails at every invocation, the retry body starting at
0-based `attempt` (with enough fuel) performs exactly
`maxAttempts - attempt` invocations and ends with the error of the final,
`maxAttempts`-th invocation. -/
theorem fetchGo_allFail {α : Type} (p : RetryPolicy) (e : Nat → String) :
    ∀ fuel attempt, p.maxAttempts ≤ attempt + fuel + 1 → attempt < p.maxAttempts →
      (fetchGo (α := α) p (fun k => Except.error (e k)) attempt fuel).invocations
          = p.maxAttempts - attempt ∧
      (fetchGo (α := α) p (fun k => Except.error (e k)) attempt fuel).result
          = Except.error (e p.maxAttempts) := by
  intro fuel
  induction fuel with
  | zero =>
    intro attempt hfuel hlt
    have ha : attempt + 1 = p.maxAttempts := by omega
    constructor
    · simp [fetchGo, fetchOnce]
      omega
    · simp [fetchGo, fetchOnce, ha]
  | succ f ih =>
    intro attempt hfuel hlt
    by_cases hg : attempt < p.maxAttempts - 1
    · have hrec := ih (attempt + 1) (by omega) (by omega)
      constructor
      · simp [fetchGo, hg, hrec.1]
        omega
      · simp [fetchGo, hg, hrec.2]
    · have ha : attempt + 1 = p.maxAttempts := by omega
      constructor
      · simp [fetchGo, hg]
        omega
      · simp [fetchGo, hg, ha]

/-- On an operation that succeeds at its k-th invocation after failing on the
invocations in between, the retry body starting at `attempt < k` (with enough
fuel) performs exactly `k - attempt` invocations and returns the success. -/
theorem fetchGo_succeeds {α : Type} (p : RetryPolicy) (op : Nat → Except String α)
    (v : α) (k : Nat) :
    ∀ fuel attempt, attempt < k → k ≤ p.maxAttempts → k ≤ attempt + fuel + 1 →
      op k = Except.ok v →
      (∀ j, attempt < j → j < k → ∃ m, op j = Except.error m) →
      (fetchGo p op attempt fuel).invocations = k - attempt ∧
      (fetchGo p op attempt fuel).result = Except.ok v := by
  intro fuel
  induction fuel with
  | zero =>
    intro attempt h1 h2 h3 hok hfail
    have ha : attempt + 1 = k := by omega
    constructor
    · simp [fetchGo, fetchOnce, ha, hok]
      omega
    · simp [fetchGo, fetchOnce, ha, hok]
  | succ f ih =>
    intro attempt h1 h2 h3 hok hfail
    by_cases hak : attempt + 1 = k
    · constructor
      · simp [fetchGo, hak, hok]
        omega
      · simp [fetchGo, hak, hok]
    · obtain ⟨m, hm⟩ := hfail (attempt + 1) (by omega) (by omega)
      have hg : attempt < p.maxAttempts - 1 := by omega
      have hrec := ih (attempt + 1) (by omega) h2 (by omega) hok
        (fun j hj1 hj2 => hfail j (by omega) hj2)
      constructor
      · simp [fetchGo, hm, hg, hrec.1]
        omega
      · simp [fetchGo, hm, hg, hrec.2]

/-- Delay bookkeeping for a run of the retry body starting at a retry call
(`1 ≤ attempt`): one backoff sleep per call, at the call's attempt index. -/
theorem fetchGo_delays {α : Type} (p : RetryPolicy) (op : Nat → Except String α) :
    ∀ fuel attempt, 1 ≤ attempt →
      (fetchGo p op attempt fuel).delays =
        (List.range' attempt (fetchGo p op attempt fuel).invocations).map
          (attemptDelay p) := by
  intro fuel
  induction fuel with
  | zero =>
    intro attempt h1
    have h0 : 0 < attempt := h1
    cases hop : op (attempt + 1) <;>
      simp [fetchGo, fetchOnce, attemptSleeps, hop, h0, List.range']
  | succ f ih =>
    intro attempt h1
    have h0 : 0 < attempt := h1
    cases hop : op (attempt + 1) with
    | ok v => simp [fetchGo, attemptSleeps, hop, h0, List.range']
    | error e =>
      by_cases hg : attempt < p.maxAttempts - 1
      · have hrec := ih (attempt + 1) (by omega)
        simp [fetchGo, attemptSleeps, hop, h0, hg, hrec, List.range'_succ]
      · simp [fetchGo, attemptSleeps, hop, h0, hg, List.range']

/-- Delay bookkeeping for the whole run from attempt 0: no sleep before the
first invocation, then one backoff sleep per retry, at attempt indices
1, 2, .... -/
theorem fetchGo_delays_zero {α : Type} (p : RetryPolicy)
    (op : Nat → Except String α) (fuel : Nat) :
    (fetchGo p op 0 fuel).delays =
      (List.range' 1 ((fetchGo p op 0 fuel).invocations - 1)).map
        (attemptDelay p) := by
  cases fuel with
  | zero => cases hop : op 1 <;> simp [fetchGo, fetchOnce, attemptSleeps, hop]
  | succ f =>
    cases hop : op 1 with
    | ok v => simp [fetchGo, attemptSleeps, hop]
    | error e =>
      by_cases hg : 0 < p.maxAttempts - 1
      · have hrec := fetchGo_delays p op f 1 le_rfl
        simp [fetchGo, attemptSleeps, hop, hg, hrec]
      · simp [fetchGo, attemptSleeps, hop, hg]

/-- A first-invocation failure under a policy allowing at least one retry
leads to a second invocation. -/
theorem fetchGo_retries {α : Type} (p : RetryPolicy) (op : Nat → Except String α)
    (m : String) (fuel : Nat) (hg : 0 < p.maxAttempts - 1) (hf : 1 ≤ fuel)
    (hop : op 1 = Except.error m) :
    2 ≤ (fetchGo p op 0 fuel).invocations := by
  obtain ⟨f, rfl⟩ : ∃ f, fuel = f + 1 := ⟨fuel - 1, by omega⟩
  have hpos := fetchGo_invocations_pos p op 1 f
  simp [fetchGo, hop, hg]
  omega

/-- If the first `k - 1` fetch invocations of the pagination loop succeed
with pages that have a next page and the k-th invocation throws, the loop
performs exactly `k` invocations and returns the PRs collected from the
first `k - 1` pages: the failure is not retried, it ends the loop. -/
theorem fetchPagesLoop_stops (fetchResults : Nat → PageResult) (pg : Nat → Page)
    (s e : Int) (m : String) :
    ∀ k, 1 ≤ k → ∀ fuel pageNum acc, k ≤ fuel →
      (∀ j, pageNum ≤ j → j + 1 < pageNum + k →
        fetchResults j = PageResult.success (pg j) ∧ (pg j).hasNextPage = true) →
      fetchResults (pageNum + k - 1) = PageResult.fetchError m →
      fetchPagesLoop fetchResults s e fuel pageNum acc =
        (acc ++ ((List.range' pageNum (k - 1)).map
            (fun j => pageFiltered s e (pg j))).flatten, k) := by
  intro k
  induction k with
  | zero => intro h; omega
  | succ k' ih =>
    intro hk1 fuel pageNum acc hfuel hsucc hfail
    obtain ⟨f, rfl⟩ : ∃ f, fuel = f + 1 := ⟨fuel - 1, by omega⟩
    cases k' with
    | zero =>
      have hp : pageNum + 1 - 1 = pageNum := by omega
      rw [hp] at hfail
      simp [fetchPagesLoop, hfail]
    | succ k'' =>
      have hfirst := hsucc pageNum le_rfl (by omega)
      have heq : pageNum + 1 + (k'' + 1) - 1 = pageNum + (k'' + 1 + 1) - 1 := by omega
      have hrec := ih (by omega) f (pageNum + 1)
        (acc ++ pageFiltered s e (pg pageNum)) (by omega)
        (fun j hj1 hj2 => hsucc j (by omega) (by omega))
        (by rw [heq]; exact hfail)
      simp only [fetchPagesLoop, hfirst.1, hfirst.2, if_true]
      rw [hrec]
      simp [List.range'_succ, List.append_assoc]

/-- C1: for every retry policy with `maxAttempts = N ≥ 1` and every operation
failing on every invocation, the retry fetcher invokes the operation exactly
N times and the raised failure wraps exactly the error of the final, N-th
invocation (the source rethrows that final error, which the caller reports as
the exhausted-retries failure). -/
theorem retry_exhausts_invocations {α : Type} (p : RetryPolicy) (e : Nat → String)
    (hN : 1 ≤ p.maxAttempts) :
    (fetchImageWithRetry (α := α) p (fun k => Except.error (e k))).invocations
        = p.maxAttempts ∧
    (fetchImageWithRetry (α := α) p (fun k => Except.error (e k))).result
        = Except.error (e p.maxAttempts) := by
  have h := fetchGo_allFail (α := α) p e p.maxAttempts 0 (by omega) (by omega)
  simpa [fetchImageWithRetry] using h

/-- Witness for C1 at the source constants: three invocations, final error. -/
theorem retry_exhausts_invocations_witness :
    1 ≤ codeRetryPolicy.maxAttempts ∧
    ((fetchImageWithRetry (α := Nat) codeRetryPolicy
        (fun k => Except.error (Nat.repr k))).invocations = codeRetryPolicy.maxAttempts ∧
      (fetchImageWithRetry (α := Nat) codeRetryPolicy
        (fun k => Except.error (Nat.repr k))).result
          = Except.error (Nat.repr codeRetryPolicy.maxAttempts)) :=
  ⟨by decide, retry_exhausts_invocations codeRetryPolicy Nat.repr (by decide)⟩

/-- C2: for every policy and every operation, the fetcher sleeps before the
retries only — the delay list has one entry per invocation after the first —
and the delay before retry k (0-indexed j = k - 1 here) is
`initialDelaySeconds * backoffMultiplier ^ (k - 1)` seconds. -/
theorem retry_backoff_schedule {α : Type} (p : RetryPolicy)
    (op : Nat → Except String α) :
    (fetchImageWithRetry p op).delays.length
        = (fetchImageWithRetry p op).invocations - 1 ∧
    (fetchImageWithRetry p op).delays
        = (List.range ((fetchImageWithRetry p op).invocations - 1)).map
            (fun j => p.initialDelaySeconds * p.backoffMultiplier ^ j) := by
  have h2 : (fetchImageWithRetry p op).delays
      = (List.range ((fetchImageWithRetry p op).invocations - 1)).map
          (fun j => p.initialDelaySeconds * p.backoffMultiplier ^ j) := by
    have h := fetchGo_delays_zero p op p.maxAttempts
    simp only [fetchImageWithRetry] at h ⊢
    rw [h, List.range'_eq_map_range, List.map_map]
    refine List.map_congr_left ?_
    intro a _
    simp [attemptDelay, Nat.add_sub_cancel_left]
  exact ⟨by rw [h2]; simp, h2⟩

/-- C3: an operation that succeeds on its k-th invocation (k ≤ maxAttempts)
after failing before is invoked exactly k times; the success value is
returned and no further retry happens. -/
theorem retry_stops_on_success {α : Type} (p : RetryPolicy)
    (op : Nat → Except String α) (v : α) (k : Nat)
    (hk1 : 1 ≤ k) (hkN : k ≤ p.maxAttempts) (hok : op k = Except.ok v)
    (hfail : ∀ j, 1 ≤ j → j < k → ∃ m, op j = Except.error m) :
    (fetchImageWithRetry p op).invocations = k ∧
    (fetchImageWithRetry p op).result = Except.ok v := by
  have h := fetchGo_succeeds p op v k p.maxAttempts 0 (by omega) hkN (by omega) hok
    (fun j hj1 hj2 => hfail j (by omega) hj2)
  simpa [fetchImageWithRetry] using h

/-- Witness for C3: success on the second invocation under the source
constants gives exactly two invocations and the value 42. -/
theorem retry_stops_on_success_witness :
    1 ≤ 2 ∧ 2 ≤ codeRetryPolicy.maxAttempts ∧ opSucceedsSecond 2 = Except.ok 42 ∧
    ((fetchImageWithRetry codeRetryPolicy opSucceedsSecond).invocations = 2 ∧
      (fetchImageWithRetry codeRetryPolicy opSucceedsSecond).result = Except.ok 42) :=
  ⟨by decide, by decide, rfl,
    retry_stops_on_success codeRetryPolicy opSucceedsSecond 42 2 (by decide) (by decide)
      rfl
      (fun j h1 h2 => ⟨"ECONNRESET", by
        have hj : j = 1 := by omega
        subst hj
        rfl⟩)⟩

/-- C4: on exhaustion the propagated error is exactly the last attempt's
error, for an arbitrary assignment of per-attempt error messages — never an
aggregate of the earlier ones. -/
theorem retry_final_error {α : Type} (p : RetryPolicy) (e : Nat → String)
    (hN : 1 ≤ p.maxAttempts) :
    (fetchImageWithRetry (α := α) p (fun k => Except.error (e k))).result
        = Except.error (e p.maxAttempts) := by
  have h := fetchGo_allFail (α := α) p e p.maxAttempts 0 (by omega) (by omega)
  simpa [fetchImageWithRetry] using h.2

/-- Witness for C4: with distinct per-attempt messages, the third attempt's
message is the propagated one. -/
theorem retry_final_error_witness :
    1 ≤ codeRetryPolicy.maxAttempts ∧
    (fetchImageWithRetry (α := Nat) codeRetryPolicy
        (fun k => Except.error ("attempt " ++ Nat.repr k))).result
      = Except.error ("attempt " ++ Nat.repr codeRetryPolicy.maxAttempts) :=
  ⟨by decide, retry_final_error codeRetryPolicy (fun k => "attempt " ++ Nat.repr k)
    (by decide)⟩

/-- C5: a non-2xx HTTP response at any invocation behaves exactly like a
rejected fetch carrying the `HTTP status: statusText` message: same attempt
limit, same backoff schedule, same final trace. -/
theorem non2xx_retried_like_network {α : Type} (p : RetryPolicy)
    (o : Nat → FetchOutcome α) (n status : Nat) (text : String) (body : α)
    (h : responseOk status = false) :
    fetchRun p (Function.update o n (FetchOutcome.response status text body)) =
      fetchRun p (Function.update o n
        (FetchOutcome.networkError (httpErrorMessage status text))) := by
  have hops : (fun k => attemptResult
        ((Function.update o n (FetchOutcome.response status text body)) k))
      = (fun k => attemptResult ((Function.update o n
          (FetchOutcome.networkError (httpErrorMessage status text))) k)) := by
    funext k
    by_cases hk : k = n
    · subst hk
      simp [Function.update_same, attemptResult, h]
    · simp [Function.update_noteq hk]
  simp only [fetchRun, fetchImageWithRetry]
  rw [hops]

/-- Witness for C5: a 500 response on the first invocation yields the same
run as a network error with the wrapped message. -/
theorem non2xx_retried_like_network_witness :
    responseOk 500 = false ∧
    fetchRun codeRetryPolicy
        (Function.update httpOutcomes 1 (FetchOutcome.response 500 "Internal Server Error" 0)) =
      fetchRun codeRetryPolicy
        (Function.update httpOutcomes 1
          (FetchOutcome.networkError (httpErrorMessage 500 "Internal Server Error"))) :=
  ⟨by decide, non2xx_retried_like_network codeRetryPolicy httpOutcomes 1 500
    "Internal Server Error" 0 (by decide)⟩

/-- C6: when the GitHub token or the Pollinations token is missing or empty,
the onPress entry point raises its configuration error with zero network
calls performed, and (for the GitHub token) `getMergedPRsFromPreviousDay`
likewise raises before any fetch. -/
theorem missing_token_no_network (gh po : Option String) (pipeline : RunTrace)
    (fetchResults : Nat → PageResult) (s e : Int) (fuel : Nat)
    (h : isFalsy gh = true ∨ isFalsy po = true) :
    ((onPressTry gh po pipeline).networkCalls = 0 ∧
      ∃ m, (onPressTry gh po pipeline).outcome = Except.error m) ∧
    (isFalsy gh = true →
      getMergedPRsFromPreviousDay gh fetchResults s e fuel
        = (Except.error "GitHub token is required", 0)) := by
  by_cases hg : isFalsy gh = true
  · refine ⟨⟨by simp [onPressTry, hg], ?_⟩, fun _ => by simp [getMergedPRsFromPreviousDay, hg]⟩
    exact ⟨"GitHub token not configured. Please set it in app settings.",
      by simp [onPressTry, hg]⟩
  · have hp : isFalsy po = true := by tauto
    refine ⟨⟨by simp [onPressTry, hg, hp], ?_⟩, fun hgg => absurd hgg hg⟩
    exact ⟨"Pollinations token not configured. Please set it in app settings.",
      by simp [onPressTry, hg, hp]⟩

/-- Witness for C6: an absent GitHub token with a present Pollinations token
yields zero network calls and a raised configuration error. -/
theorem missing_token_no_network_witness :
    (isFalsy none = true ∨ isFalsy (some "polli") = true) ∧
    (((onPressTry none (some "polli") ⟨7, Except.ok ()⟩).networkCalls = 0 ∧
      ∃ m, (onPressTry none (some "polli") ⟨7, Except.ok ()⟩).outcome = Except.error m) ∧
    (isFalsy none = true →
      getMergedPRsFromPreviousDay none (fun _ => PageResult.graphqlErrors) 0 1 2
        = (Except.error "GitHub token is required", 0))) :=
  ⟨by decide, missing_token_no_network none (some "polli") ⟨7, Except.ok ()⟩
    (fun _ => PageResult.graphqlErrors) 0 1 2 (by decide)⟩

/-- C7 counterexample: with a GitHub token present and a fetch-invocation
stream whose first invocation fails transiently (every later invocation
would succeed and return a previous-day PR), `getMergedPRsFromPreviousDay`
performs exactly one fetch invocation and returns the empty PR list: the
pagination loop does not retry the transient failure, it terminates. -/
theorem pagination_no_retry_counterexample :
    getMergedPRsFromPreviousDay (some "ghp_token") transientFailPages 0 100 5
        = (Except.ok [], 1) ∧
    transientFailPages 2 = PageResult.success samplePRPage ∧
    ¬ 2 ≤ (getMergedPRsFromPreviousDay (some "ghp_token") transientFailPages 0 100 5).2 := by
  decide

/-- C7 amended: the image-generation call sites wrap their fetch in the
bounded retry-with-exponential-backoff behaviour (a first-invocation failure
under a policy allowing retries leads to a second invocation), but the PR
pagination loop does not retry: a fetch failure at invocation k terminates
the loop after exactly k invocations, returning only the PRs collected from
the earlier pages. -/
theorem retry_sites_vs_pagination {α : Type} (p : RetryPolicy)
    (op : Nat → Except String α) (m m' : String)
    (fetchResults : Nat → PageResult) (pg : Nat → Page) (s e : Int)
    (fuel k : Nat) (hmax : 2 ≤ p.maxAttempts) (hop : op 1 = Except.error m)
    (hk1 : 1 ≤ k) (hkf : k ≤ fuel)
    (hsucc : ∀ j, 1 ≤ j → j + 1 < 1 + k →
      fetchResults j = PageResult.success (pg j) ∧ (pg j).hasNextPage = true)
    (hfail : fetchResults k = PageResult.fetchError m') :
    2 ≤ (fetchImageWithRetry p op).invocations ∧
    fetchPagesLoop fetchResults s e fuel 1 []
        = (((List.range' 1 (k - 1)).map (fun j => pageFiltered s e (pg j))).flatten, k) := by
  constructor
  · have h := fetchGo_retries p op m p.maxAttempts (by omega) (by omega) hop
    simpa [fetchImageWithRetry] using h
  · have h := fetchPagesLoop_stops fetchResults pg s e m' k hk1 fuel 1 [] hkf hsucc
      (by
        have h1 : 1 + k - 1 = k := by omega
        rw [h1]
        exact hfail)
    simpa using h

/-- Witness for C7 amended: one successful page with a successor, then a
transient failure; the loop stops at two invocations with the first page's
PR, while the retry fetcher re-invokes a failing operation. -/
theorem retry_sites_vs_pagination_witness :
    2 ≤ codeRetryPolicy.maxAttempts ∧ wOp 1 = Except.error "socket hang up" ∧
    (1 : Nat) ≤ 2 ∧ (2 : Nat) ≤ 5 ∧
    (∀ j, 1 ≤ j → j + 1 < 1 + 2 →
      wFetch j = PageResult.success (wPg j) ∧ (wPg j).hasNextPage = true) ∧
    wFetch 2 = PageResult.fetchError "network timeout" ∧
    (2 ≤ (fetchImageWithRetry codeRetryPolicy wOp).invocations ∧
      fetchPagesLoop wFetch 0 100 5 1 []
        = (((List.range' 1 (2 - 1)).map (fun j => pageFiltered 0 100 (wPg j))).flatten, 2)) := by
  have hsucc : ∀ j, 1 ≤ j → j + 1 < 1 + 2 →
      wFetch j = PageResult.success (wPg j) ∧ (wPg j).hasNextPage = true := by
    intro j h1 h2
    have hj : j = 1 := by omega
    subst hj
    exact ⟨rfl, rfl⟩
  exact ⟨by decide, rfl, by decide, by decide, hsucc, rfl,
    retry_sites_vs_pagination codeRetryPolicy wOp "socket hang up" "network timeout"
      wFetch wPg 0 100 5 2 (by decide) rfl (by decide) (by decide) hsucc rfl⟩

/-- C8: when the prompt step and image generation succeed (the image file is
written to disk) and the bot is connected but posting to Reddit fails, the
workflow result carries exactly the posting error and the final disk is the
initial disk plus the saved image file — nothing already on disk (image or
metadata) is removed or changed. -/
theorem saved_image_survives_post_failure (pd : PromptData)
    (outcomes : Nat → FetchOutcome Nat) (sz : Nat) (ts : String) (nowMs : Nat)
    (m : String) (disk : List String)
    (hfetch : (fetchRun codeRetryPolicy outcomes).result = Except.ok sz) :
    runFullWorkflow (some pd) (Except.ok ()) outcomes (Except.ok ()) ts nowMs true
        (Except.error m) disk
      = (disk ++ [imageFilename ts nowMs], WorkflowResult.failure m) := by
  simp [runFullWorkflow, generateAndSaveComicImage, generateAndSaveTry, hfetch]

/-- Witness for C8: a 200-response image generation followed by a posting
failure leaves the saved image (and the pre-existing metadata file) on disk
and surfaces the posting error. -/
theorem saved_image_survives_post_failure_witness :
    (fetchRun codeRetryPolicy okOutcomes).result = Except.ok 4096 ∧
    runFullWorkflow (some fallbackPromptData) (Except.ok ()) okOutcomes (Except.ok ())
        "2025-01-01" 1735689600000 true (Except.error "Failed to post to Reddit")
        ["old-metadata.json"]
      = (["old-metadata.json"] ++ [imageFilename "2025-01-01" 1735689600000],
         WorkflowResult.failure "Failed to post to Reddit") :=
  ⟨rfl, saved_image_survives_post_failure fallbackPromptData okOutcomes 4096
    "2025-01-01" 1735689600000 "Failed to post to Reddit" ["old-metadata.json"] rfl⟩

/-- C9: an empty or missing PR list yields the fixed fallback prompt data
(default Pollinations prompt, summary "No specific updates from previous
day", zero count, no highlights), and a non-empty list yields `prCount`
equal to its length with at most 8 highlights. -/
theorem createMergedPrompt_behaviour (l : List PR) (h : l ≠ []) :
    createMergedPrompt none = fallbackPromptData ∧
    createMergedPrompt (some []) = fallbackPromptData ∧
    fallbackPromptData.prompt
        = "Pollinations: A free, open-source AI image generation platform with community updates" ∧
    fallbackPromptData.summary = "No specific updates from previous day" ∧
    fallbackPromptData.prCount = 0 ∧
    fallbackPromptData.highlights = [] ∧
    (createMergedPrompt (some l)).prCount = l.length ∧
    (createMergedPrompt (some l)).highlights.length ≤ 8 := by
  refine ⟨rfl, rfl, rfl, rfl, rfl, rfl, ?_, ?_⟩
  · cases l with
    | nil => exact absurd rfl h
    | cons a t => simp [createMergedPrompt]
  · cases l with
    | nil => exact absurd rfl h
    | cons a t => simp [createMergedPrompt, List.length_take]

/-- Witness for C9 at a one-element PR list. -/
theorem createMergedPrompt_behaviour_witness :
    [samplePR] ≠ [] ∧
    (createMergedPrompt none = fallbackPromptData ∧
      createMergedPrompt (some []) = fallbackPromptData ∧
      fallbackPromptData.prompt
          = "Pollinations: A free, open-source AI image generation platform with community updates" ∧
      fallbackPromptData.summary = "No specific updates from previous day" ∧
      fallbackPromptData.prCount = 0 ∧
      fallbackPromptData.highlights = [] ∧
      (createMergedPrompt (some [samplePR])).prCount = [samplePR].length ∧
      (createMergedPrompt (some [samplePR])).highlights.length ≤ 8) :=
  ⟨by decide, createMergedPrompt_behaviour [samplePR] (by decide)⟩

/-- C10: `generateAndSaveComicImage` never propagates an exception: for every
prompt data, directory/write outcome and fetch-outcome stream, its own result
is a normally returned object, either success-shaped (with filepath, filename
and filesize) or failure-shaped (with the caught error message). -/
theorem generateAndSave_total (promptData : Option PromptData)
    (mkdir write : Except String Unit) (outcomes : Nat → FetchOutcome Nat)
    (ts : String) (nowMs : Nat) (disk : List String) :
    (∃ fp fn sz, (generateAndSaveComicImage promptData mkdir outcomes write ts nowMs disk).2
        = JsResult.ok (GenImageResult.success fp fn sz)) ∨
    (∃ m, (generateAndSaveComicImage promptData mkdir outcomes write ts nowMs disk).2
        = JsResult.ok (GenImageResult.failure m)) := by
  rcases htry : generateAndSaveTry promptData mkdir outcomes write ts nowMs disk with ⟨d, r⟩
  cases r with
  | ok s =>
    exact Or.inl ⟨s.filepath, s.filename, s.filesize,
      by simp [generateAndSaveComicImage, htry]⟩
  | thrown msg =>
    exact Or.inr ⟨msg, by simp [generateAndSaveComicImage, htry]⟩
